import Mathlib

/-!
Verification of the SLA-calculation scripts (calculate_sla) against their
design document. Python floats are modelled as exact rationals; at every
concrete input used below the IEEE-754 evaluation and the rational one
agree (checked separately for the boundary case 999/1000*100 = 99.9).

The embedding covers:
  - the SLI arithmetic and verdict (calculate_availability_sli, the inline
    comparison against the SLO target in main);
  - the result extractor (get_sum_from_mage_response) over a model of
    Python/JSON values with Python truthiness and float() coercion;
  - the Mage HTTP client (MageRequest.search) as a function of the
    abstract outcome of the POST request, with the raising operations
    modelled in an Except monad and the trailing except-clauses as the
    match that discharges it;
  - the initialization flow (Mysql connect + schema DDL, wrapped by the
    try/except in main) and the resulting process exit code;
  - one iteration of the evaluation loop over its two configured signals;
  - the schema bootstrap of both variants (7HW and legacy) over an
    abstract MySQL schema state, including the auto-naming of unnamed
    indexes (col, col_2, ...);
  - the legacy save_indicator, which builds the INSERT text and the value
    tuple but never executes the statement.
-/

/-- Model of a Python value as produced by response.json(): Python None,
bool, int, float (as an exact rational), str, list and dict. -/
inductive PyVal where
  | none
  | bool (b : Bool)
  | int (n : ℤ)
  | float (q : ℚ)
  | str (s : String)
  | list (xs : List PyVal)
  | dict (kvs : List (String × PyVal))

/-- Python truthiness: None, False, zero, the empty string, the empty list
and the empty dict are falsy; everything else is truthy. -/
def PyVal.isTruthy : PyVal → Bool
  | .none => false
  | .bool b => b
  | .int n => !(n == 0)
  | .float q => !(q == 0)
  | .str s => !(s == "")
  | .list xs => !xs.isEmpty
  | .dict kvs => !kvs.isEmpty

/-- The isinstance(x, dict) check. -/
def PyVal.isDict : PyVal → Bool
  | .dict _ => true
  | _ => false

/-- Key lookup in a dict value (Python d[k] / k in d); none on non-dicts. -/
def PyVal.lookup : PyVal → String → Option PyVal
  | .dict kvs, k => kvs.lookup k
  | _, _ => Option.none

/-- Value of a digit string, most significant first. -/
def digitsToNat (ds : List Char) : ℕ :=
  ds.foldl (fun a c => a * 10 + (c.toNat - 48)) 0

/-- Leading optional sign of a numeric literal. -/
def parseSign : List Char → ℤ × List Char
  | '+' :: rest => (1, rest)
  | '-' :: rest => (-1, rest)
  | cs => (1, cs)

/-- Longest leading run of decimal digits. -/
def takeDigits : List Char → List Char × List Char
  | [] => ([], [])
  | c :: rest =>
    if c.isDigit then
      let (d, r) := takeDigits rest
      (c :: d, r)
    else
      ([], c :: rest)

/-- Exponent suffix of a float literal: the whole remaining input must be
e or E, an optional sign and a nonempty digit run. -/
def parseExponent : List Char → Option ℤ
  | [] => some 0
  | e :: rest =>
    if e = 'e' ∨ e = 'E' then
      let (esign, rest1) := parseSign rest
      let (ed, rest2) := takeDigits rest1
      if ed.isEmpty ∨ !rest2.isEmpty then Option.none
      else some (esign * (digitsToNat ed : ℤ))
    else Option.none

/-- Python float(str) on finite decimal literals: optional sign, digits
with an optional fractional part (at least one digit overall), optional
exponent; surrounding whitespace is stripped. Non-finite spellings (inf,
nan) fall outside the rational model and are not represented. -/
def parsePyFloatString (s : String) : Option ℚ :=
  let (sign, cs) := parseSign s.trim.toList
  let (ip, cs1) := takeDigits cs
  let (fp, cs2) :=
    match cs1 with
    | '.' :: rest => takeDigits rest
    | _ => ([], cs1)
  if ip.isEmpty ∧ fp.isEmpty then Option.none
  else
    match parseExponent cs2 with
    | Option.none => Option.none
    | some ex =>
      some ((sign : ℚ) * ((digitsToNat ip : ℚ) + (digitsToNat fp : ℚ) / (10 : ℚ) ^ fp.length)
        * (10 : ℚ) ^ ex)

/-- Python float(x): bools and ints coerce, floats pass through, strings
are parsed; None, lists and dicts raise TypeError (here: no result). -/
def pyFloat : PyVal → Option ℚ
  | .bool b => some (if b then 1 else 0)
  | .int n => some (n : ℚ)
  | .float q => some q
  | .str s => parsePyFloatString s
  | _ => Option.none

/-- Embedding of get_sum_from_mage_response. The source guard reads
not hits or not isinstance(hits, list) or not hits[0] or not
isinstance(hits[0], dict): the first two disjuncts are the outer match
(anything that is not a nonempty list yields 0), then the truthiness of
the first element, then the dict check; then field presence; then float()
wrapped in try/except returning 0.0 on ValueError/TypeError. -/
def get_sum_from_mage_response (hits : PyVal) (field_name : String) : ℚ :=
  match hits with
  | .list (first :: _) =>
    if first.isTruthy = false then 0
    else
      match first with
      | .dict kvs =>
        match kvs.lookup field_name with
        | some v =>
          match pyFloat v with
          | some q => q
          | Option.none => 0
        | Option.none => 0
      | _ => 0
  | _ => 0

/-- Embedding of calculate_availability_sli: 100.0 when the total is zero,
otherwise success over total times 100. -/
def calculate_availability_sli (total_checks success_checks : ℚ) : ℚ :=
  if total_checks = 0 then 100 else success_checks / total_checks * 100

/-- The inline verdict computed in main for each signal:
percentage < slo_target, strict. -/
def verdict (percentage slo_target : ℚ) : Bool :=
  decide (percentage < slo_target)

/-- Abstract outcome of the HTTP POST to the Mage API: a timeout, another
transport-level failure, or a response with a status code and a body
(no body: the payload is not valid JSON, so response.json() raises). -/
inductive HttpOutcome where
  | timeout
  | connectionError
  | response (status : ℕ) (body : Option PyVal)

/-- Exception classes relevant to MageRequest.search: the
requests.exceptions.RequestException family, and every other Exception. -/
inductive PyErr where
  | requestError
  | otherError

/-- response.raise_for_status(): raises HTTPError (a RequestException) for
4xx and 5xx status codes. -/
def raise_for_status (status : ℕ) : Except PyErr Unit :=
  if 400 ≤ status then Except.error PyErr.requestError else Except.ok ()

/-- response.json(): raises on a malformed body. -/
def response_json : Option PyVal → Except PyErr PyVal
  | some v => Except.ok v
  | Option.none => Except.error PyErr.otherError

/-- content.get("hits", []): default [] when the key is absent;
AttributeError when content is not a dict. -/
def content_get_hits : PyVal → Except PyErr PyVal
  | .dict kvs => Except.ok ((kvs.lookup "hits").getD (.list []))
  | _ => Except.error PyErr.otherError

/-- The body of the try block in MageRequest.search: POST, status check,
JSON decoding, extraction of hits, and the early return [] when hits is
falsy (empty or missing). -/
def searchAttempt (o : HttpOutcome) : Except PyErr PyVal :=
  match o with
  | .timeout => Except.error PyErr.requestError
  | .connectionError => Except.error PyErr.requestError
  | .response status body =>
    match raise_for_status status with
    | Except.error e => Except.error e
    | Except.ok () =>
      match response_json body with
      | Except.error e => Except.error e
      | Except.ok content =>
        match content_get_hits content with
        | Except.error e => Except.error e
        | Except.ok hits =>
          if hits.isTruthy then Except.ok hits else Except.ok (.list [])

/-- Embedding of MageRequest.search: the two trailing except clauses
(RequestException, then Exception) turn every raised error into []. -/
def MageRequest.search (o : HttpOutcome) : PyVal :=
  match searchAttempt o with
  | Except.ok hits => hits
  | Except.error _ => .list []

/-- Outcome of mysql.connector.connect in Mysql.__init__ (raises a
mysql.connector.Error, an Exception subclass, on failure). -/
inductive ConnectOutcome where
  | ok
  | failure

/-- Outcome of the schema DDL statements inside the try block of
Mysql.__init__. -/
inductive SchemaOutcome where
  | ok
  | failure

/-- How Mysql.__init__ terminates: normally, via sys.exit (SystemExit,
which is not an Exception subclass), or by an Exception propagating. -/
inductive MysqlInitOutcome where
  | ready
  | systemExit (code : ℕ)
  | raisedError

/-- Embedding of Mysql.__init__: the connect call sits before the try
block, so its failure propagates as an Exception; a DDL failure is caught
by the except clause, logged critical, and turned into sys.exit(1). -/
def Mysql.init (c : ConnectOutcome) (s : SchemaOutcome) : MysqlInitOutcome :=
  match c with
  | .failure => MysqlInitOutcome.raisedError
  | .ok =>
    match s with
    | .failure => MysqlInitOutcome.systemExit 1
    | .ok => MysqlInitOutcome.ready

/-- Exit code of the process when initialization does not complete, per
the try/except Exception/finally in main: SystemExit passes through the
except Exception clause unhandled, so the process exits with its code; a
propagating Exception is caught and logged, main returns normally and the
process exits 0. When initialization completes the loop starts and no
exit happens at this stage. -/
def mainInitExitCode (c : ConnectOutcome) (s : SchemaOutcome) : Option ℕ :=
  match Mysql.init c s with
  | MysqlInitOutcome.ready => Option.none
  | MysqlInitOutcome.systemExit code => some code
  | MysqlInitOutcome.raisedError => some 0

/-- One row as passed to Mysql.save_indicator in the 7HW variant (the
evaluation timestamp is carried separately as a natural number). -/
structure IndicatorRecord where
  name : String
  slo_target : ℚ
  sli : ℚ
  is_bad : Bool
  period_minutes : ℕ
deriving DecidableEq

/-- Outcome of the storage write in save_indicator, step by step: both
the cursor acquisition and the execute succeed; the cursor is acquired
but cursor.execute raises a mysql.connector.Error (inside the try, so it
is caught); or connection.cursor() itself raises a mysql.connector.Error
(storage unreachable) — that call sits before the try block, so its error
is not caught here. -/
inductive WriteOutcome where
  | ok
  | mysqlError
  | cursorError
deriving DecidableEq

/-- What became of the record: persisted, or dropped after the
mysql.connector.Error from cursor.execute was caught and logged. -/
inductive SaveResult where
  | saved
  | dropped
deriving DecidableEq

/-- connection.cursor(), executed before the try block of save_indicator:
raises a mysql.connector.Error (an Exception) when the connection is
unavailable. -/
def connectionCursor (w : WriteOutcome) : Except PyErr Unit :=
  match w with
  | .cursorError => Except.error PyErr.otherError
  | _ => Except.ok ()

/-- cursor.execute for the INSERT, inside the try block. -/
def cursorExecuteInsert (w : WriteOutcome) : Except PyErr Unit :=
  match w with
  | .mysqlError => Except.error PyErr.otherError
  | _ => Except.ok ()

/-- Embedding of Mysql.save_indicator (7HW): the cursor acquisition runs
before the try block, so its error escapes the method uncaught; only the
execute is wrapped in try/except mysql.connector.Error, where a failed
write is logged, the record dropped, and the method returns normally. -/
def Mysql.save_indicator (w : WriteOutcome) (_r : IndicatorRecord) :
    Except PyErr SaveResult :=
  match connectionCursor w with
  | Except.error e => Except.error e
  | Except.ok () =>
    match cursorExecuteInsert w with
    | Except.ok () => Except.ok SaveResult.saved
    | Except.error _ => Except.ok SaveResult.dropped

/-- The external world seen by one signal in one iteration: the outcomes
of its two Mage queries and of its storage write. -/
structure SignalEnv where
  totalOutcome : HttpOutcome
  successOutcome : HttpOutcome
  writeOutcome : WriteOutcome

/-- The per-signal block of main: search twice, extract the two sums,
compute the SLI, compare against the SLO target, save the record. An
error escaping save_indicator escapes the block — main has no per-signal
handler. -/
def evalSignal (name : String) (slo_target : ℚ) (period : ℕ) (env : SignalEnv) :
    Except PyErr (IndicatorRecord × SaveResult) :=
  let total_hits := MageRequest.search env.totalOutcome
  let success_hits := MageRequest.search env.successOutcome
  let total_val := get_sum_from_mage_response total_hits "total_value"
  let success_val := get_sum_from_mage_response success_hits "success_value"
  let percentage := calculate_availability_sli total_val success_val
  let record : IndicatorRecord :=
    { name := name, slo_target := slo_target, sli := percentage,
      is_bad := verdict percentage slo_target, period_minutes := period }
  match Mysql.save_indicator env.writeOutcome record with
  | Except.error e => Except.error e
  | Except.ok res => Except.ok (record, res)

/-- The external world seen by one whole iteration of the loop: one
environment per configured signal. -/
structure IterEnv where
  api : SignalEnv
  creation : SignalEnv

/-- One iteration of the while loop in main: the api-availability signal
(SLO 99.9) then the creation-user signal (SLO 98.0), evaluated and saved
in that order. The result is the trace of completed (record, outcome)
pairs — writes already performed stay performed — together with the
exception escaping the iteration, when one does: an error on the first
signal prevents the second from being evaluated at all. -/
def runIteration (period : ℕ) (e : IterEnv) :
    List (IndicatorRecord × SaveResult) × Option PyErr :=
  match evalSignal "api_availability_percentage" (999 / 10) period e.api with
  | Except.error er => ([], some er)
  | Except.ok r1 =>
    match evalSignal "creation_user_percentage" 98 period e.creation with
    | Except.error er => ([r1], some er)
    | Except.ok r2 => ([r1, r2], Option.none)

/-- The loop across iterations: iterations run in sequence, each seeing
its own environment. An exception escaping an iteration is caught only by
the try/except around the whole loop in main, so it ends the loop: later
scheduled iterations never run. -/
def runLoop (period : ℕ) : List IterEnv →
    List (List (IndicatorRecord × SaveResult)) × Option PyErr
  | [] => ([], Option.none)
  | e :: es =>
    match runIteration period e with
    | (rs, some er) => ([rs], some er)
    | (rs, Option.none) =>
      let (rest, er) := runLoop period es
      (rs :: rest, er)

/-- Abstract MySQL schema state for the bootstrap: whether the database
and the table exist, and the indexes on the table as (index name, column)
pairs. MySQL cannot hold two databases or two tables of the same name, so
their existence is a flag; indexes on the same column may be duplicated
under distinct auto-generated names. -/
structure SchemaState where
  dbExists : Bool
  tableExists : Bool
  indexes : List (String × String)

/-- Whether some index with the given name exists (SHOW INDEX ... WHERE
Key_name = n). -/
def indexNameTaken (s : SchemaState) (n : String) : Bool :=
  s.indexes.any (fun p => p.1 == n)

/-- MySQL auto-naming for ALTER TABLE ADD INDEX (col): the index is named
col if that name is free, otherwise col_2, col_3, and so on. -/
def autoIndexName (s : SchemaState) (col : String) : String :=
  if indexNameTaken s col = false then col
  else go 2 (s.indexes.length + 1)
where
  go (k fuel : ℕ) : String :=
    match fuel with
    | 0 => col ++ "_" ++ toString k
    | fuel' + 1 =>
      let cand := col ++ "_" ++ toString k
      if indexNameTaken s cand = false then cand else go (k + 1) fuel'

/-- ALTER TABLE ADD INDEX (col): appends the auto-named index. -/
def SchemaState.addIndex (s : SchemaState) (col : String) : SchemaState :=
  { s with indexes := s.indexes ++ [(autoIndexName s col, col)] }

/-- The schema DDL of the 7HW Mysql init, success path: CREATE DATABASE
IF NOT EXISTS, CREATE TABLE IF NOT EXISTS, then each index is added only
when SHOW INDEX finds no index of that name. -/
def bootstrap7HW (s : SchemaState) : SchemaState :=
  let s1 : SchemaState := { s with dbExists := true }
  let s2 : SchemaState := { s1 with tableExists := true }
  let s3 : SchemaState :=
    if indexNameTaken s2 "datetime" then s2 else s2.addIndex "datetime"
  if indexNameTaken s3 "name" then s3 else s3.addIndex "name"

/-- The schema DDL of the legacy Mysql init: CREATE DATABASE IF NOT
EXISTS, CREATE TABLE IF NOT EXISTS, then two unconditional ALTER TABLE
ADD INDEX statements. -/
def bootstrapLegacy (s : SchemaState) : SchemaState :=
  let s1 : SchemaState := { s with dbExists := true }
  let s2 : SchemaState := { s1 with tableExists := true }
  let s3 : SchemaState := s2.addIndex "datetime"
  s3.addIndex "name"

/-- Number of indexes on a given column. -/
def indexCountOn (s : SchemaState) (col : String) : ℕ :=
  (s.indexes.filter (fun p => p.2 == col)).length

/-- A fresh storage instance: no database, no table, no indexes. -/
def freshSchema : SchemaState :=
  { dbExists := false, tableExists := false, indexes := [] }

/-- Embedding of the legacy Mysql.save_indicator: it opens a cursor,
builds the INSERT text and the value tuple, and returns; cursor.execute
is never called, so the stored rows are returned unchanged. The built
text and tuple are returned as well so the construction is visible. -/
def Mysql.save_indicator_legacy (rows : List (String × ℚ × ℚ × ℕ × Option String))
    (name : String) (slo value : ℚ) (is_bad : Bool) (t : Option String) :
    List (String × ℚ × ℚ × ℕ × Option String) × String × (String × ℚ × ℚ × ℕ × Option String) :=
  let sql := "INSERT INTO " ++ "indicators" ++
    " (name, slo, value, is_bad, datetime) VALUES (%s, %s, %s, %s)"
  let val : String × ℚ × ℚ × ℕ × Option String :=
    (name, slo, value, if is_bad then 1 else 0, t)
  (rows, sql, val)

/-- Claim C1: calculate_availability_sli returns exactly 100 when the
total is 0, regardless of the success count; for positive total it
returns success / total * 100 with no clamping, so a success count above
the total yields a result above 100. -/
theorem ratio_zero_total_and_no_clamping (total success : ℚ) :
    (total = 0 → calculate_availability_sli total success = 100) ∧
    (0 < total → calculate_availability_sli total success = success / total * 100) ∧
    (0 < total → total < success → 100 < calculate_availability_sli total success) := by
  refine ⟨fun h => by simp [calculate_availability_sli, h],
    fun h => by simp [calculate_availability_sli, h.ne'],
    fun h hs => ?_⟩
  have h1 : 1 < success / total := (one_lt_div h).mpr hs
  simp only [calculate_availability_sli, if_neg h.ne']
  nlinarith

/-- Witness for C1 at total 0 and 4, success 7 and 5. -/
theorem ratio_zero_total_and_no_clamping_witness :
    calculate_availability_sli 0 7 = 100 ∧
    calculate_availability_sli 4 5 = 5 / 4 * 100 ∧
    100 < calculate_availability_sli 4 5 :=
  ⟨(ratio_zero_total_and_no_clamping 0 7).1 rfl,
   (ratio_zero_total_and_no_clamping 4 5).2.1 (by norm_num),
   (ratio_zero_total_and_no_clamping 4 5).2.2 (by norm_num) (by norm_num)⟩

/-- Claim C2: the verdict is the strict comparison percentage <
slo_target, so a percentage exactly at the target passes. -/
theorem verdict_strict_less_than (p t : ℚ) :
    (verdict p t = true ↔ p < t) ∧ verdict t t = false := by
  constructor
  · simp [verdict]
  · simp [verdict]

/-- Claim C8: with total 1000 and success 999 the ratio is exactly 99.9
and the verdict against target 99.9 is false (boundary passes); with
success 998 the ratio is 99.8 and the verdict against 99.9 is true. -/
theorem boundary_scenarios :
    calculate_availability_sli 1000 999 = 999 / 10 ∧
    verdict (calculate_availability_sli 1000 999) (999 / 10) = false ∧
    calculate_availability_sli 1000 998 = 499 / 5 ∧
    verdict (calculate_availability_sli 1000 998) (999 / 10) = true := by
  norm_num [calculate_availability_sli, verdict]

/-- Claim C3: get_sum_from_mage_response returns 0 and never raises when
the hits list is empty, when the first element is not a dict, when the
field is absent from the first element, or when the value does not
convert to a number; otherwise it returns the converted value of the
field from the first element, and later elements never matter. -/
theorem extractor_first_row_only (field : String) :
    (get_sum_from_mage_response (.list []) field = 0) ∧
    (∀ (first : PyVal) (rest : List PyVal), first.isDict = false →
      get_sum_from_mage_response (.list (first :: rest)) field = 0) ∧
    (∀ (kvs : List (String × PyVal)) (rest : List PyVal),
      kvs.lookup field = Option.none →
      get_sum_from_mage_response (.list (.dict kvs :: rest)) field = 0) ∧
    (∀ (kvs : List (String × PyVal)) (rest : List PyVal) (v : PyVal),
      kvs.lookup field = some v → pyFloat v = Option.none →
      get_sum_from_mage_response (.list (.dict kvs :: rest)) field = 0) ∧
    (∀ (kvs : List (String × PyVal)) (rest : List PyVal) (v : PyVal) (q : ℚ),
      kvs.lookup field = some v → pyFloat v = some q →
      get_sum_from_mage_response (.list (.dict kvs :: rest)) field = q) ∧
    (∀ (first : PyVal) (rest rest' : List PyVal),
      get_sum_from_mage_response (.list (first :: rest)) field =
        get_sum_from_mage_response (.list (first :: rest')) field) := by
  refine ⟨rfl, ?_, ?_, ?_, ?_, ?_⟩
  · intro first rest h
    cases first <;> simp_all [get_sum_from_mage_response, PyVal.isDict, PyVal.isTruthy]
  · intro kvs rest h
    cases kvs with
    | nil => rfl
    | cons a as => simp [get_sum_from_mage_response, PyVal.isTruthy, h]
  · intro kvs rest v h hv
    cases kvs with
    | nil => simp [List.lookup] at h
    | cons a as => simp [get_sum_from_mage_response, PyVal.isTruthy, h, hv]
  · intro kvs rest v q h hv
    cases kvs with
    | nil => simp [List.lookup] at h
    | cons a as => simp [get_sum_from_mage_response, PyVal.isTruthy, h, hv]
  · intro first rest rest'
    rfl

/-- Witness for C3 at concrete hits values for each branch. -/
theorem extractor_first_row_only_witness :
    get_sum_from_mage_response (.list []) "total_value" = 0 ∧
    get_sum_from_mage_response (.list [.int 3]) "total_value" = 0 ∧
    get_sum_from_mage_response (.list [.dict [("x", .int 1)]]) "total_value" = 0 ∧
    get_sum_from_mage_response (.list [.dict [("total_value", .none)]]) "total_value" = 0 ∧
    get_sum_from_mage_response
      (.list [.dict [("total_value", .int 5)], .dict []]) "total_value" = 5 ∧
    get_sum_from_mage_response
      (.list [.dict [("total_value", .int 5)], .int 9]) "total_value" =
      get_sum_from_mage_response (.list [.dict [("total_value", .int 5)]]) "total_value" :=
  ⟨(extractor_first_row_only "total_value").1,
   (extractor_first_row_only "total_value").2.1 (.int 3) [] rfl,
   (extractor_first_row_only "total_value").2.2.1 [("x", .int 1)] [] rfl,
   (extractor_first_row_only "total_value").2.2.2.1 [("total_value", .none)] [] .none rfl rfl,
   (extractor_first_row_only "total_value").2.2.2.2.1
     [("total_value", .int 5)] [.dict []] (.int 5) 5 rfl rfl,
   (extractor_first_row_only "total_value").2.2.2.2.2
     (.dict [("total_value", .int 5)]) [.int 9] []⟩

/-- Claim C4: MageRequest.search never lets an error escape: transport
failures (timeout, connection error), 4xx/5xx statuses, malformed bodies,
a missing hits key and an empty hits payload all yield the empty list,
and any raised error inside the attempt is turned into the empty list, so
empty and error are indistinguishable to the caller. -/
theorem search_failsoft (o : HttpOutcome) (status : ℕ) (body : Option PyVal)
    (kvs : List (String × PyVal)) :
    MageRequest.search HttpOutcome.timeout = PyVal.list [] ∧
    MageRequest.search HttpOutcome.connectionError = PyVal.list [] ∧
    (400 ≤ status → MageRequest.search (.response status body) = PyVal.list []) ∧
    (status < 400 → MageRequest.search (.response status Option.none) = PyVal.list []) ∧
    (status < 400 → kvs.lookup "hits" = Option.none →
      MageRequest.search (.response status (some (.dict kvs))) = PyVal.list []) ∧
    (status < 400 → kvs.lookup "hits" = some (PyVal.list []) →
      MageRequest.search (.response status (some (.dict kvs))) = PyVal.list []) ∧
    (∀ e, searchAttempt o = Except.error e → MageRequest.search o = PyVal.list []) := by
  refine ⟨rfl, rfl, ?_, ?_, ?_, ?_, ?_⟩
  · intro h
    simp [MageRequest.search, searchAttempt, raise_for_status, h, Except.bind]
  · intro h
    simp [MageRequest.search, searchAttempt, raise_for_status, Nat.not_le.mpr h,
      response_json, Except.bind]
  · intro h hk
    simp [MageRequest.search, searchAttempt, raise_for_status, Nat.not_le.mpr h,
      response_json, content_get_hits, hk, Except.bind, PyVal.isTruthy]
  · intro h hk
    simp [MageRequest.search, searchAttempt, raise_for_status, Nat.not_le.mpr h,
      response_json, content_get_hits, hk, Except.bind, PyVal.isTruthy]
  · intro e h
    simp [MageRequest.search, h]

/-- Witness for C4 at status 500, a malformed body at status 200, a
response without a hits key, an empty hits list, and a timeout. -/
theorem search_failsoft_witness :
    MageRequest.search (.response 500 (some (.dict []))) = PyVal.list [] ∧
    MageRequest.search (.response 200 Option.none) = PyVal.list [] ∧
    MageRequest.search (.response 200 (some (.dict [("other", .int 1)]))) = PyVal.list [] ∧
    MageRequest.search (.response 200 (some (.dict [("hits", .list [])]))) = PyVal.list [] ∧
    MageRequest.search HttpOutcome.timeout = PyVal.list [] :=
  ⟨(search_failsoft .timeout 500 (some (.dict [])) []).2.2.1 (by norm_num),
   (search_failsoft .timeout 200 Option.none []).2.2.2.1 (by norm_num),
   (search_failsoft .timeout 200 Option.none [("other", .int 1)]).2.2.2.2.1
     (by norm_num) rfl,
   (search_failsoft .timeout 200 Option.none [("hits", .list [])]).2.2.2.2.2.1
     (by norm_num) rfl,
   (search_failsoft .timeout 200 Option.none []).2.2.2.2.2.2 PyErr.requestError rfl⟩

/-- Claim C5 counterexample: with storage unreachable
(mysql.connector.connect raises, before the try block of Mysql init), the
exception is caught by the except Exception clause in main, main returns
normally, and the process exits with status 0 — not non-zero as the claim
states. -/
theorem init_exit_zero_on_connect_failure :
    mainInitExitCode ConnectOutcome.failure SchemaOutcome.ok = some 0 := rfl

/-- Claim C5 as amended: only a failure of the schema DDL after a
successful connection exits with the non-zero status 1 (via sys.exit);
a connection failure is caught in main and the process exits 0. -/
theorem init_exit_code_amended :
    mainInitExitCode ConnectOutcome.ok SchemaOutcome.failure = some 1 ∧
    (∀ s, mainInitExitCode ConnectOutcome.failure s = some 0) ∧
    (∀ c s n, mainInitExitCode c s = some n → n ≠ 0 →
      c = ConnectOutcome.ok ∧ s = SchemaOutcome.failure) := by
  refine ⟨rfl, fun s => by cases s <;> rfl, fun c s n h hn => ?_⟩
  cases c <;> cases s <;> simp_all [mainInitExitCode, Mysql.init]

/-- Witness for C5 as amended, at the concrete connect and schema
outcomes. -/
theorem init_exit_code_amended_witness :
    mainInitExitCode ConnectOutcome.ok SchemaOutcome.failure = some 1 ∧
    mainInitExitCode ConnectOutcome.failure SchemaOutcome.ok = some 0 ∧
    (ConnectOutcome.ok = ConnectOutcome.ok ∧ SchemaOutcome.failure = SchemaOutcome.failure) :=
  ⟨init_exit_code_amended.1,
   init_exit_code_amended.2.1 SchemaOutcome.ok,
   init_exit_code_amended.2.2 ConnectOutcome.ok SchemaOutcome.failure 1 rfl one_ne_zero⟩

/-- A signal whose write does not fail at cursor acquisition is evaluated
to a result (network, extraction and execute failures are all handled
inside the components). -/
theorem evalSignal_ok_of_ne_cursor (name : String) (slo : ℚ) (period : ℕ)
    (env : SignalEnv) (h : env.writeOutcome ≠ WriteOutcome.cursorError) :
    ∃ r, evalSignal name slo period env = Except.ok r := by
  obtain ⟨t, s, w⟩ := env
  cases w with
  | ok => exact ⟨_, rfl⟩
  | mysqlError => exact ⟨_, rfl⟩
  | cursorError => exact absurd rfl h

/-- An iteration whose signals are free of cursor-acquisition failures
lets no exception escape and completes both signals. -/
theorem runIteration_no_escape (period : ℕ) (x : IterEnv)
    (h1 : x.api.writeOutcome ≠ WriteOutcome.cursorError)
    (h2 : x.creation.writeOutcome ≠ WriteOutcome.cursorError) :
    (runIteration period x).2 = Option.none ∧ (runIteration period x).1.length = 2 := by
  obtain ⟨r1, hr1⟩ := evalSignal_ok_of_ne_cursor "api_availability_percentage"
    (999 / 10) period x.api h1
  obtain ⟨r2, hr2⟩ := evalSignal_ok_of_ne_cursor "creation_user_percentage"
    98 period x.creation h2
  simp [runIteration, hr1, hr2]

/-- Claim C6 counterexample: with two signals configured, a storage write
failure at cursor acquisition (connection.cursor() raising, storage
unreachable — a write-failure mode the claim covers) on the first signal
escapes save_indicator: the second signal is never evaluated, its record
is not written, the iteration does not complete, and the next scheduled
iteration never runs — refuting the stated containment. -/
theorem cursor_failure_ends_iteration_and_loop :
    runIteration 30 ⟨⟨.timeout, .timeout, .cursorError⟩, ⟨.timeout, .timeout, .ok⟩⟩ =
      ([], some PyErr.otherError) ∧
    runLoop 30 [⟨⟨.timeout, .timeout, .cursorError⟩, ⟨.timeout, .timeout, .ok⟩⟩,
        ⟨⟨.timeout, .timeout, .ok⟩, ⟨.timeout, .timeout, .ok⟩⟩] =
      ([[]], some PyErr.otherError) :=
  ⟨rfl, rfl⟩

/-- Claim C6 as amended: containment holds for the failure modes caught
at component granularity — network errors, extraction errors, and write
errors raised by cursor.execute: under those, an iteration evaluates both
signals, each signal's entry depends only on its own environment, an
execute failure on the first signal still leaves the second signal's
record saved, and every scheduled iteration runs. A write failure at
cursor acquisition, however, escapes save_indicator (the cursor call sits
before the try), aborts the iteration, and ends the loop. -/
theorem iteration_containment_amended (period : ℕ) (e : IterEnv) :
    (e.api.writeOutcome ≠ WriteOutcome.cursorError →
      e.creation.writeOutcome ≠ WriteOutcome.cursorError →
      (runIteration period e).2 = Option.none ∧ (runIteration period e).1.length = 2) ∧
    (∀ e' : IterEnv, e'.creation = e.creation →
      e'.api.writeOutcome ≠ WriteOutcome.cursorError →
      e.api.writeOutcome ≠ WriteOutcome.cursorError →
      (runIteration period e').1[1]? = (runIteration period e).1[1]?) ∧
    (∀ e' : IterEnv, e'.api = e.api →
      (runIteration period e').1[0]? = (runIteration period e).1[0]?) ∧
    (e.api.writeOutcome = WriteOutcome.mysqlError →
      e.creation.writeOutcome = WriteOutcome.ok →
      (runIteration period e).1.map Prod.snd = [SaveResult.dropped, SaveResult.saved]) ∧
    (e.api.writeOutcome = WriteOutcome.cursorError →
      runIteration period e = ([], some PyErr.otherError)) ∧
    (∀ es : List IterEnv,
      (∀ x ∈ es, x.api.writeOutcome ≠ WriteOutcome.cursorError ∧
        x.creation.writeOutcome ≠ WriteOutcome.cursorError) →
      (runLoop period es).1.length = es.length ∧ (runLoop period es).2 = Option.none) := by
  refine ⟨runIteration_no_escape period e, ?_, ?_, ?_, ?_, ?_⟩
  · intro e' hc h1' h1
    obtain ⟨r1', hr1'⟩ := evalSignal_ok_of_ne_cursor "api_availability_percentage"
      (999 / 10) period e'.api h1'
    obtain ⟨r1, hr1⟩ := evalSignal_ok_of_ne_cursor "api_availability_percentage"
      (999 / 10) period e.api h1
    simp only [runIteration, hr1', hr1, hc]
    cases hev : evalSignal "creation_user_percentage" 98 period e.creation <;> simp [hev]
  · intro e' ha
    simp only [runIteration, ha]
    cases hev : evalSignal "api_availability_percentage" (999 / 10) period e.api with
    | error er => simp [hev]
    | ok r1 =>
      simp only [hev]
      cases hev2 : evalSignal "creation_user_percentage" 98 period e'.creation <;>
        cases hev3 : evalSignal "creation_user_percentage" 98 period e.creation <;>
          simp [hev2, hev3]
  · intro h1 h2
    obtain ⟨⟨t1, s1, w1⟩, ⟨t2, s2, w2⟩⟩ := e
    simp only at h1 h2
    subst h1; subst h2
    simp [runIteration, evalSignal, Mysql.save_indicator, connectionCursor,
      cursorExecuteInsert]
  · intro h1
    obtain ⟨⟨t1, s1, w1⟩, cr⟩ := e
    simp only at h1
    subst h1
    simp [runIteration, evalSignal, Mysql.save_indicator, connectionCursor]
  · intro es h
    induction es with
    | nil => simp [runLoop]
    | cons x xs ih =>
      have hx := h x (List.mem_cons_self x xs)
      have hrest := ih fun y hy => h y (List.mem_cons_of_mem x hy)
      have hno := runIteration_no_escape period x hx.1 hx.2
      simp only [runLoop]
      cases hit : runIteration period x with
      | mk rs er =>
        rw [hit] at hno
        have her : er = Option.none := hno.1
        subst her
        cases hl : runLoop period xs with
        | mk rest er2 =>
          rw [hl] at hrest
          have hlen : rest.length = xs.length := hrest.1
          have her2 : er2 = Option.none := hrest.2
          subst her2
          simp [hlen]

/-- Witness for C6 as amended: an iteration whose first write fails at
execute still saves the second record; a cursor failure aborts; a clean
single-iteration loop runs once. -/
theorem iteration_containment_amended_witness :
    (runIteration 30 ⟨⟨.timeout, .timeout, .mysqlError⟩, ⟨.timeout, .timeout, .ok⟩⟩).1.map
      Prod.snd = [SaveResult.dropped, SaveResult.saved] ∧
    runIteration 30 ⟨⟨.timeout, .timeout, .cursorError⟩, ⟨.timeout, .timeout, .ok⟩⟩ =
      ([], some PyErr.otherError) ∧
    (runLoop 30 [⟨⟨.timeout, .timeout, .ok⟩, ⟨.timeout, .timeout, .ok⟩⟩]).1.length = 1 :=
  ⟨(iteration_containment_amended 30
      ⟨⟨.timeout, .timeout, .mysqlError⟩, ⟨.timeout, .timeout, .ok⟩⟩).2.2.2.1 rfl rfl,
   (iteration_containment_amended 30
      ⟨⟨.timeout, .timeout, .cursorError⟩, ⟨.timeout, .timeout, .ok⟩⟩).2.2.2.2.1 rfl,
   ((iteration_containment_amended 30
      ⟨⟨.timeout, .timeout, .ok⟩, ⟨.timeout, .timeout, .ok⟩⟩).2.2.2.2.2
      [⟨⟨.timeout, .timeout, .ok⟩, ⟨.timeout, .timeout, .ok⟩⟩]
      (by intro x hx; simp at hx; subst hx; exact ⟨by decide, by decide⟩)).1⟩

/-- Claim C7: when both Mage queries of a signal time out and its write
succeeds, the extracted sums default to 0, the SLI is 100, the verdict is
false, and a record with value 100 is still written for that signal — for
the first signal unconditionally, and for the second whenever the first
signal's write does not abort the iteration before it. -/
theorem timeout_yields_healthy_record (period : ℕ) (e : IterEnv) :
    (e.api = ⟨HttpOutcome.timeout, HttpOutcome.timeout, WriteOutcome.ok⟩ →
      (runIteration period e).1[0]? = some
        ({ name := "api_availability_percentage", slo_target := 999 / 10, sli := 100,
           is_bad := false, period_minutes := period }, SaveResult.saved)) ∧
    (e.creation = ⟨HttpOutcome.timeout, HttpOutcome.timeout, WriteOutcome.ok⟩ →
      e.api.writeOutcome ≠ WriteOutcome.cursorError →
      (runIteration period e).1[1]? = some
        ({ name := "creation_user_percentage", slo_target := 98, sli := 100,
           is_bad := false, period_minutes := period }, SaveResult.saved)) := by
  have hapi : evalSignal "api_availability_percentage" (999 / 10) period
      ⟨HttpOutcome.timeout, HttpOutcome.timeout, WriteOutcome.ok⟩ = Except.ok
      ({ name := "api_availability_percentage", slo_target := 999 / 10, sli := 100,
         is_bad := false, period_minutes := period }, SaveResult.saved) := by
    simp [evalSignal, MageRequest.search, searchAttempt, get_sum_from_mage_response,
      calculate_availability_sli, verdict, Mysql.save_indicator, connectionCursor,
      cursorExecuteInsert]
    norm_num
  have hcre : evalSignal "creation_user_percentage" 98 period
      ⟨HttpOutcome.timeout, HttpOutcome.timeout, WriteOutcome.ok⟩ = Except.ok
      ({ name := "creation_user_percentage", slo_target := 98, sli := 100,
         is_bad := false, period_minutes := period }, SaveResult.saved) := by
    simp [evalSignal, MageRequest.search, searchAttempt, get_sum_from_mage_response,
      calculate_availability_sli, verdict, Mysql.save_indicator, connectionCursor,
      cursorExecuteInsert]
    norm_num
  constructor
  · intro h
    simp only [runIteration, h, hapi]
    cases hev : evalSignal "creation_user_percentage" 98 period e.creation <;> simp [hev]
  · intro h h2
    obtain ⟨r1, hr1⟩ := evalSignal_ok_of_ne_cursor "api_availability_percentage"
      (999 / 10) period e.api h2
    simp [runIteration, h, hr1, hcre]

/-- Witness for C7 at an iteration where both signals' queries time out
and both writes succeed. -/
theorem timeout_yields_healthy_record_witness :
    (runIteration 30 ⟨⟨.timeout, .timeout, .ok⟩, ⟨.timeout, .timeout, .ok⟩⟩).1[0]? = some
      ({ name := "api_availability_percentage", slo_target := 999 / 10, sli := 100,
         is_bad := false, period_minutes := 30 }, SaveResult.saved) ∧
    (runIteration 30 ⟨⟨.timeout, .timeout, .ok⟩, ⟨.timeout, .timeout, .ok⟩⟩).1[1]? = some
      ({ name := "creation_user_percentage", slo_target := 98, sli := 100,
         is_bad := false, period_minutes := 30 }, SaveResult.saved) :=
  ⟨(timeout_yields_healthy_record 30 ⟨⟨.timeout, .timeout, .ok⟩,
      ⟨.timeout, .timeout, .ok⟩⟩).1 rfl,
   (timeout_yields_healthy_record 30 ⟨⟨.timeout, .timeout, .ok⟩,
      ⟨.timeout, .timeout, .ok⟩⟩).2 rfl (by decide)⟩

/-- Adding an index names it exactly by the auto-naming rule. -/
theorem indexNameTaken_addIndex (s : SchemaState) (col n : String) :
    indexNameTaken (s.addIndex col) n =
      (indexNameTaken s n || (autoIndexName s col == n)) := by
  simp [SchemaState.addIndex, indexNameTaken]

/-- When no index carries the column name yet, the auto-generated name is
the column name itself. -/
theorem autoIndexName_free (s : SchemaState) (col : String)
    (h : indexNameTaken s col = false) : autoIndexName s col = col := by
  simp [autoIndexName, h]

/-- Index names survive later additions. -/
theorem indexNameTaken_mono (s : SchemaState) (col n : String)
    (h : indexNameTaken s n = true) : indexNameTaken (s.addIndex col) n = true := by
  simp [indexNameTaken_addIndex, h]

/-- After adding an index for a column whose name was free, that name is
taken. -/
theorem indexNameTaken_after_add (s : SchemaState) (col : String)
    (h : indexNameTaken s col = false) :
    indexNameTaken (s.addIndex col) col = true := by
  simp [indexNameTaken_addIndex, autoIndexName_free s col h]

/-- Flags and the index list are untouched in the expected ways. -/
theorem addIndex_flags (s : SchemaState) (col : String) :
    (s.addIndex col).dbExists = s.dbExists ∧
      (s.addIndex col).tableExists = s.tableExists := by
  simp [SchemaState.addIndex]

/-- After one run of the 7HW bootstrap both flags are set and both index
names are present, from any starting state. -/
theorem bootstrap7HW_postcond (s : SchemaState) :
    (bootstrap7HW s).dbExists = true ∧ (bootstrap7HW s).tableExists = true ∧
    indexNameTaken (bootstrap7HW s) "datetime" = true ∧
    indexNameTaken (bootstrap7HW s) "name" = true := by
  obtain ⟨db, tb, idx⟩ := s
  show _ ∧ _ ∧ _ ∧ _
  simp only [bootstrap7HW]
  by_cases h1 : indexNameTaken ⟨true, true, idx⟩ "datetime" = true
  · rw [if_pos h1]
    by_cases h2 : indexNameTaken ⟨true, true, idx⟩ "name" = true
    · rw [if_pos h2]
      exact ⟨rfl, rfl, h1, h2⟩
    · have h2f : indexNameTaken ⟨true, true, idx⟩ "name" = false := by
        simpa using h2
      rw [if_neg h2]
      exact ⟨rfl, rfl, indexNameTaken_mono _ _ _ h1,
        indexNameTaken_after_add _ _ h2f⟩
  · have h1f : indexNameTaken ⟨true, true, idx⟩ "datetime" = false := by
      simpa using h1
    rw [if_neg h1]
    have hdt := indexNameTaken_after_add ⟨true, true, idx⟩ "datetime" h1f
    by_cases h2 :
      indexNameTaken (SchemaState.addIndex ⟨true, true, idx⟩ "datetime") "name" = true
    · rw [if_pos h2]
      exact ⟨rfl, rfl, hdt, h2⟩
    · have h2f :
          indexNameTaken (SchemaState.addIndex ⟨true, true, idx⟩ "datetime") "name"
            = false := by
        simpa using h2
      rw [if_neg h2]
      exact ⟨rfl, rfl, indexNameTaken_mono _ _ _ hdt,
        indexNameTaken_after_add _ _ h2f⟩

/-- A state satisfying the postcondition is a fixed point of the 7HW
bootstrap. -/
theorem bootstrap7HW_fixed (u : SchemaState) (h1 : u.dbExists = true)
    (h2 : u.tableExists = true) (h3 : indexNameTaken u "datetime" = true)
    (h4 : indexNameTaken u "name" = true) : bootstrap7HW u = u := by
  obtain ⟨db, tb, idx⟩ := u
  simp only at h1 h2
  subst h1; subst h2
  simp only [indexNameTaken] at h3 h4
  simp [bootstrap7HW, indexNameTaken, h3, h4]

/-- Claim C9 counterexample: the legacy bootstrap run twice from a fresh
storage leaves two indexes on the datetime column and two on the name
column (the second run adds auto-named duplicates datetime_2 and name_2),
refuting the stated idempotence for the legacy variant the claim also
covers. -/
theorem legacy_bootstrap_duplicates_indexes :
    indexCountOn (bootstrapLegacy (bootstrapLegacy freshSchema)) "datetime" = 2 ∧
    indexCountOn (bootstrapLegacy (bootstrapLegacy freshSchema)) "name" = 2 ∧
    (bootstrapLegacy (bootstrapLegacy freshSchema)).indexes =
      [("datetime", "datetime"), ("name", "name"),
       ("datetime_2", "datetime"), ("name_2", "name")] := by
  refine ⟨rfl, rfl, rfl⟩

/-- Claim C9 as amended: the 7HW bootstrap is idempotent — a second run
is a no-op from any prior state, and from a fresh storage two runs leave
the database, the table, and exactly one index on the datetime column and
one on the name column; the legacy variant, by contrast, duplicates the
indexes (see the counterexample). -/
theorem bootstrap_idempotent_amended :
    (∀ s : SchemaState, bootstrap7HW (bootstrap7HW s) = bootstrap7HW s) ∧
    (bootstrap7HW (bootstrap7HW freshSchema)).dbExists = true ∧
    (bootstrap7HW (bootstrap7HW freshSchema)).tableExists = true ∧
    indexCountOn (bootstrap7HW (bootstrap7HW freshSchema)) "datetime" = 1 ∧
    indexCountOn (bootstrap7HW (bootstrap7HW freshSchema)) "name" = 1 ∧
    (bootstrap7HW (bootstrap7HW freshSchema)).indexes =
      [("datetime", "datetime"), ("name", "name")] := by
  refine ⟨fun s => ?_, rfl, rfl, rfl, rfl, rfl⟩
  exact bootstrap7HW_fixed (bootstrap7HW s) (bootstrap7HW_postcond s).1
    (bootstrap7HW_postcond s).2.1 (bootstrap7HW_postcond s).2.2.1
    (bootstrap7HW_postcond s).2.2.2

/-- Claim C10: the legacy save_indicator builds the INSERT text and the
value tuple but never executes the statement: the stored rows come back
unchanged and the call returns normally for every input. -/
theorem legacy_save_writes_nothing (rows : List (String × ℚ × ℚ × ℕ × Option String))
    (name : String) (slo value : ℚ) (b : Bool) (t : Option String) :
    (Mysql.save_indicator_legacy rows name slo value b t).1 = rows ∧
    (Mysql.save_indicator_legacy rows name slo value b t).2.1 =
      "INSERT INTO indicators (name, slo, value, is_bad, datetime) VALUES (%s, %s, %s, %s)" ∧
    (Mysql.save_indicator_legacy rows name slo value b t).2.2 =
      (name, slo, value, if b then 1 else 0, t) :=
  ⟨rfl, rfl, rfl⟩
